import Mathlib

/-!
Shallow embedding of the PCA963x LED-driver crate (`src/lib.rs`).

The crate models two I2C LED-driver chips (PCA9633, 4 channels; PCA9634,
8 channels).  Its state is:
  * `Address`, a package/strap descriptor resolved to a 7-bit bus address;
  * `Config`, two bitflag registers `Mode1` (bits Sleep=0x10, Sub1=0x08,
    Sub2=0x04, Sub3=0x02, AllCall=0x01) and `Mode2` (DmBlink=0x20,
    Invert=0x10, Och=0x08, OutDrv=0x04, OutNe1=0x02, OutNe0=0x01).
    `Config`'s fields are private and only reachable through
    `default`/`new` and the setters, so the flag sets are embedded as
    records of the named flag booleans together with a `bits`
    serialization that places each flag at its source bit position;
  * the device trait `PCA963X`, generic over an I2C transport; transport
    calls are embedded as explicit state passing over an abstract bus.
Bytes are embedded as `Nat` (all register arithmetic in the source stays
below 256, so no wrap-around is involved).
-/

/-- `Address` enum from the source: package descriptor for the bus address. -/
inductive Address where
  | pin8 : Address
  | pin10 : Bool → Bool → Address
  | pin16 : Bool → Bool → Bool → Bool → Bool → Bool → Bool → Address
  | custom : Nat → Address
deriving DecidableEq

/-- `Address::address`: `_8Pin => 0x62`, `_10Pin => 0x60 | a0 | a1 << 1`,
`_16Pin => a0 | a1 << 1 | ... | a6 << 6`, `Custom(addr) => addr`. -/
def Address.address : Address → Nat
  | .pin8 => 0x62
  | .pin10 a0 a1 => 0x60 ||| a0.toNat ||| (a1.toNat <<< 1)
  | .pin16 a0 a1 a2 a3 a4 a5 a6 =>
      a0.toNat ||| (a1.toNat <<< 1) ||| (a2.toNat <<< 2) ||| (a3.toNat <<< 3)
        ||| (a4.toNat <<< 4) ||| (a5.toNat <<< 5) ||| (a6.toNat <<< 6)
  | .custom addr => addr

/-- `Mode1` bitflags (Sleep=0x10, Sub1=0x08, Sub2=0x04, Sub3=0x02, AllCall=0x01). -/
structure Mode1 where
  sleep : Bool
  sub1 : Bool
  sub2 : Bool
  sub3 : Bool
  allCall : Bool
deriving DecidableEq

/-- The `u8` value of a `Mode1` flag set, each flag at its source bit. -/
def Mode1.bits (m : Mode1) : Nat :=
  (if m.sleep then 0x10 else 0) ||| (if m.sub1 then 0x08 else 0)
    ||| (if m.sub2 then 0x04 else 0) ||| (if m.sub3 then 0x02 else 0)
    ||| (if m.allCall then 0x01 else 0)

/-- `Mode2` bitflags (DmBlink=0x20, Invert=0x10, Och=0x08, OutDrv=0x04,
OutNe1=0x02, OutNe0=0x01). -/
structure Mode2 where
  dmBlink : Bool
  invert : Bool
  och : Bool
  outDrv : Bool
  outNe1 : Bool
  outNe0 : Bool
deriving DecidableEq

/-- The `u8` value of a `Mode2` flag set, each flag at its source bit. -/
def Mode2.bits (m : Mode2) : Nat :=
  (if m.dmBlink then 0x20 else 0) ||| (if m.invert then 0x10 else 0)
    ||| (if m.och then 0x08 else 0) ||| (if m.outDrv then 0x04 else 0)
    ||| (if m.outNe1 then 0x02 else 0) ||| (if m.outNe0 then 0x01 else 0)

/-- `LedOut` enum: per-channel output mode. -/
inductive LedOut where
  | fullyOff : LedOut
  | fullyOn : LedOut
  | pwm : LedOut
  | pwmGroup : LedOut
deriving DecidableEq

/-- The discriminant of `LedOut` (`out as u8`). -/
def LedOut.toByte : LedOut → Nat
  | .fullyOff => 0
  | .fullyOn => 1
  | .pwm => 2
  | .pwmGroup => 3

/-- `OutputDrive` enum: the 3-valued OutNe pair setting. -/
inductive OutputDrive where
  | outNe00 : OutputDrive
  | outNe01 : OutputDrive
  | outNe10 : OutputDrive
deriving DecidableEq

/-- `Och` enum: outputs change on STOP or on ACK. -/
inductive Och where
  | changeOnStop : Och
  | changeOnAck : Och
deriving DecidableEq

/-- `OutDrv` enum: open-drain or totem-pole output structure. -/
inductive OutDrv where
  | openDrain : OutDrv
  | totemPole : OutDrv
deriving DecidableEq

/-- `Config`: one `Mode1` and one `Mode2` flag set. -/
structure Config where
  mode1 : Mode1
  mode2 : Mode2
deriving DecidableEq

/-- `Config::default()`: `mode1 = AllCall | Sleep`, `mode2 = OutDrv | OutNe0`. -/
def Config.default : Config :=
  { mode1 := { sleep := true, sub1 := false, sub2 := false, sub3 := false, allCall := true }
    mode2 := { dmBlink := false, invert := false, och := false, outDrv := true,
               outNe1 := false, outNe0 := true } }

/-- `Config::new()`: `mode1 = AllCall`, `mode2 = OutDrv | OutNe0`. -/
def Config.new : Config :=
  { mode1 := { sleep := false, sub1 := false, sub2 := false, sub3 := false, allCall := true }
    mode2 := { dmBlink := false, invert := false, och := false, outDrv := true,
               outNe1 := false, outNe0 := true } }

/-- `Config::sub1`: `self.mode1.set(Mode1::Sub1, enable)`. -/
def Config.sub1 (c : Config) (enable : Bool) : Config :=
  { c with mode1 := { c.mode1 with sub1 := enable } }

/-- `Config::sub2`: `self.mode1.set(Mode1::Sub2, enable)`. -/
def Config.sub2 (c : Config) (enable : Bool) : Config :=
  { c with mode1 := { c.mode1 with sub2 := enable } }

/-- `Config::sub3`: `self.mode1.set(Mode1::Sub3, enable)`. -/
def Config.sub3 (c : Config) (enable : Bool) : Config :=
  { c with mode1 := { c.mode1 with sub3 := enable } }

/-- `Config::all_call`: `self.mode1.set(Mode1::AllCall, enable)`. -/
def Config.all_call (c : Config) (enable : Bool) : Config :=
  { c with mode1 := { c.mode1 with allCall := enable } }

/-- `Config::sleep`: `self.mode1.set(Mode1::Sleep, enable)`. -/
def Config.sleep (c : Config) (enable : Bool) : Config :=
  { c with mode1 := { c.mode1 with sleep := enable } }

/-- `Config::blink`: `self.mode2.set(Mode2::DmBlink, enable)`. -/
def Config.blink (c : Config) (enable : Bool) : Config :=
  { c with mode2 := { c.mode2 with dmBlink := enable } }

/-- `Config::invert`: `self.mode2.set(Mode2::Invert, enable)`. -/
def Config.invert (c : Config) (enable : Bool) : Config :=
  { c with mode2 := { c.mode2 with invert := enable } }

/-- `Config::och`: clears the Och flag on `ChangeOnStop`, sets it on `ChangeOnAck`. -/
def Config.och (c : Config) (change : Och) : Config :=
  match change with
  | .changeOnStop => { c with mode2 := { c.mode2 with och := false } }
  | .changeOnAck => { c with mode2 := { c.mode2 with och := true } }

/-- `Config::out_drv`: clears the OutDrv flag on `OpenDrain`, sets it on `TotemPole`. -/
def Config.out_drv (c : Config) (outdrv : OutDrv) : Config :=
  match outdrv with
  | .openDrain => { c with mode2 := { c.mode2 with outDrv := false } }
  | .totemPole => { c with mode2 := { c.mode2 with outDrv := true } }

/-- `Config::outne`: `OutNe00` removes both OutNe flags; `OutNe01` inserts
OutNe0 and removes OutNe1; `OutNe10` removes OutNe0 and inserts OutNe1. -/
def Config.outne (c : Config) (out : OutputDrive) : Config :=
  match out with
  | .outNe00 => { c with mode2 := { c.mode2 with outNe1 := false, outNe0 := false } }
  | .outNe01 => { c with mode2 := { c.mode2 with outNe0 := true, outNe1 := false } }
  | .outNe10 => { c with mode2 := { c.mode2 with outNe0 := false, outNe1 := true } }

/-- `Channels` trait: a channel maps to its zero-based offset. -/
class Channels (C : Type) where
  get_offs : C → Nat

export Channels (get_offs)

/-- `Channels4` enum: the four channels of the PCA9633, offsets 0..3. -/
inductive Channels4 where
  | ch1 : Channels4
  | ch2 : Channels4
  | ch3 : Channels4
  | ch4 : Channels4
deriving DecidableEq

instance : Channels Channels4 where
  get_offs
    | .ch1 => 0
    | .ch2 => 1
    | .ch3 => 2
    | .ch4 => 3

/-- `Channels8` enum: the eight channels of the PCA9634, offsets 0..7. -/
inductive Channels8 where
  | ch1 : Channels8
  | ch2 : Channels8
  | ch3 : Channels8
  | ch4 : Channels8
  | ch5 : Channels8
  | ch6 : Channels8
  | ch7 : Channels8
  | ch8 : Channels8
deriving DecidableEq

instance : Channels Channels8 where
  get_offs
    | .ch1 => 0
    | .ch2 => 1
    | .ch3 => 2
    | .ch4 => 3
    | .ch5 => 4
    | .ch6 => 5
    | .ch7 => 6
    | .ch8 => 7

/-- `AUTOINCR_ALL`: control bit selecting auto-increment-all addressing. -/
def AUTOINCR_ALL : Nat := 0x80

/-- The per-device register-address constants of the `PCA963X` trait. -/
structure RegMap where
  MODE1 : Nat
  MODE2 : Nat
  PWM0 : Nat
  GRPPWM : Nat
  GRPFREQ : Nat
  LEDOUT1 : Nat
  SUBADR1 : Nat
  SUBADR2 : Nat
  SUBADR3 : Nat
  ALLCALLADR : Nat

/-- Register constants of the 4-channel `PCA9633` device. -/
def PCA9633regs : RegMap :=
  { MODE1 := 0x00, MODE2 := 0x01, PWM0 := 0x02, GRPPWM := 0x06, GRPFREQ := 0x07,
    LEDOUT1 := 0x08, SUBADR1 := 0x09, SUBADR2 := 0x0A, SUBADR3 := 0x0B,
    ALLCALLADR := 0x0C }

/-- Register constants of the 8-channel `PCA9634` device. -/
def PCA9634regs : RegMap :=
  { MODE1 := 0x00, MODE2 := 0x01, PWM0 := 0x02, GRPPWM := 0x0A, GRPFREQ := 0x0B,
    LEDOUT1 := 0x0C, SUBADR1 := 0x0E, SUBADR2 := 0x0F, SUBADR3 := 0x10,
    ALLCALLADR := 0x11 }

/-- The blocking I2C transport capability (`i2c::Write` + `i2c::Read`),
embedded as explicit state passing: `busWrite s addr bytes` and
`busRead s addr len` each return a result and the next transport state. -/
structure I2CBus (S E : Type) where
  busWrite : S → Nat → List Nat → Except E Unit × S
  busRead : S → Nat → Nat → Except E (List Nat) × S

/-- Macro-generated `read`: `i2c.write(addr, &[register])?` then
`i2c.read(addr, &mut buf)?` into a one-byte buffer, returning `buf[0]`. -/
def PCA963X.read (bus : I2CBus S E) (addr register : Nat) (s : S) :
    Except E Nat × S :=
  match bus.busWrite s addr [register] with
  | (Except.error e, s1) => (Except.error e, s1)
  | (Except.ok _, s1) =>
    match bus.busRead s1 addr 1 with
    | (Except.error e, s2) => (Except.error e, s2)
    | (Except.ok buf, s2) => (Except.ok (buf.headD 0), s2)

/-- Macro-generated `write`: `i2c.write(addr, &[register, value])`. -/
def PCA963X.write (bus : I2CBus S E) (addr register value : Nat) (s : S) :
    Except E Unit × S :=
  bus.busWrite s addr [register, value]

/-- Macro-generated `write_config`:
`i2c.write(addr, &[AUTOINCR_ALL | Self::MODE1, conf.mode1.bits, conf.mode2.bits])`. -/
def PCA963X.write_config (bus : I2CBus S E) (addr : Nat) (R : RegMap)
    (conf : Config) (s : S) : Except E Unit × S :=
  bus.busWrite s addr [AUTOINCR_ALL ||| R.MODE1, conf.mode1.bits, conf.mode2.bits]

/-- Trait method `read_duty`: `self.read(Self::PWM0 + ch.get_offs())`. -/
def PCA963X.read_duty [Channels C] (bus : I2CBus S E) (addr : Nat) (R : RegMap)
    (ch : C) (s : S) : Except E Nat × S :=
  PCA963X.read bus addr (R.PWM0 + get_offs ch) s

/-- Trait method `write_duty`: `self.write(Self::PWM0 + ch.get_offs(), value)`. -/
def PCA963X.write_duty [Channels C] (bus : I2CBus S E) (addr : Nat) (R : RegMap)
    (ch : C) (value : Nat) (s : S) : Except E Unit × S :=
  PCA963X.write bus addr (R.PWM0 + get_offs ch) value s

/-- Trait method `write_out`, embedded exactly as the source computes it:
read `LEDOUT1 + offs / 4`; then `ledout &= 0x03 << ((offs % 4) * 2)`;
then `ledout |= (out as u8) << ((offs % 4) * 2)`; write the byte back. -/
def PCA963X.write_out [Channels C] (bus : I2CBus S E) (addr : Nat) (R : RegMap)
    (ch : C) (out : LedOut) (s : S) : Except E Unit × S :=
  let offs := get_offs ch
  match PCA963X.read bus addr (R.LEDOUT1 + offs / 4) s with
  | (Except.error e, s1) => (Except.error e, s1)
  | (Except.ok b, s1) =>
    let ledout := (b &&& (0x03 <<< (offs % 4 * 2))) ||| (out.toByte <<< (offs % 4 * 2))
    PCA963X.write bus addr (R.LEDOUT1 + offs / 4) ledout s1

/-- A bus transaction as observed by a test double. -/
inductive BusEvent where
  | writeEv : Nat → List Nat → BusEvent
  | readEv : Nat → Nat → BusEvent
deriving DecidableEq

/-- Tracing test-double transport: records every transaction; a write fails
with `we` when given, a read fails with `re` when given (reads return
zero-filled buffers otherwise). -/
def traceBus (E : Type) (we re : Option E) : I2CBus (List BusEvent) E :=
  { busWrite := fun s a bs =>
      ((match we with
        | some e => Except.error e
        | none => Except.ok ()), s ++ [BusEvent.writeEv a bs])
    busRead := fun s a n =>
      ((match re with
        | some e => Except.error e
        | none => Except.ok (List.replicate n 0)), s ++ [BusEvent.readEv a n]) }

/-- State of the register-array test double: a register file plus the
register pointer set by the last addressing write. -/
structure RegState where
  regs : Nat → Nat
  ptr : Nat

/-- Register-array test-double transport: a one-byte write sets the register
pointer, a two-byte write `[r, v]` stores `v` at register `r`, and a read
returns the register at the pointer.  Never fails. -/
def regBus (E : Type) : I2CBus RegState E :=
  { busWrite := fun s _a bs =>
      match bs with
      | [r] => (Except.ok (), { s with ptr := r })
      | [r, v] => (Except.ok (), { regs := fun x => if x = r then v else s.regs x, ptr := r })
      | _ => (Except.ok (), s)
    busRead := fun s _a n => (Except.ok (List.replicate n (s.regs s.ptr)), s) }

/-- One fluent setter call on `Config`, with its argument. -/
inductive SetterCall where
  | sub1 : Bool → SetterCall
  | sub2 : Bool → SetterCall
  | sub3 : Bool → SetterCall
  | all_call : Bool → SetterCall
  | sleep : Bool → SetterCall
  | blink : Bool → SetterCall
  | invert : Bool → SetterCall
  | och : Och → SetterCall
  | out_drv : OutDrv → SetterCall
  | outne : OutputDrive → SetterCall
deriving DecidableEq

/-- The flag (or, for `outne`, flag pair) a setter call targets. -/
def SetterCall.target : SetterCall → Nat
  | .sub1 _ => 0
  | .sub2 _ => 1
  | .sub3 _ => 2
  | .all_call _ => 3
  | .sleep _ => 4
  | .blink _ => 5
  | .invert _ => 6
  | .och _ => 7
  | .out_drv _ => 8
  | .outne _ => 9

/-- Apply one setter call to a configuration. -/
def applyCall (c : Config) : SetterCall → Config
  | .sub1 e => c.sub1 e
  | .sub2 e => c.sub2 e
  | .sub3 e => c.sub3 e
  | .all_call e => c.all_call e
  | .sleep e => c.sleep e
  | .blink e => c.blink e
  | .invert e => c.invert e
  | .och m => c.och m
  | .out_drv m => c.out_drv m
  | .outne m => c.outne m

theorem applyCall_comm (s t : SetterCall) (h : s.target ≠ t.target) (c : Config) :
    applyCall (applyCall c s) t = applyCall (applyCall c t) s := by
  cases s <;> cases t <;>
    first
      | exact absurd rfl h
      | (rename_i x y; cases x <;> cases y <;> rfl)

/-- Claim C1 (failing input): on the 4-channel device, channel 1, mode
`FullyOff`, with the LED-output register previously holding 0xFF, `write_out`
writes back 0x03 — it keeps the target channel's old 2-bit field and zeroes
the other three fields — whereas the byte prescribed by the claim (clear the
target 2-bit field of 0xFF, OR in the mode code 0) is 0xFC. -/
theorem C1_write_out_failing_input :
    (PCA963X.write_out (regBus Unit) 0x62 PCA9633regs Channels4.ch1 LedOut.fullyOff
        ⟨fun _ => 0xFF, 0⟩).2.regs PCA9633regs.LEDOUT1 = 0x03
    ∧ (0xFF &&& (0xFF ^^^ (0x03 <<< (get_offs Channels4.ch1 % 4 * 2))))
        ||| (LedOut.toByte LedOut.fullyOff <<< (get_offs Channels4.ch1 % 4 * 2)) = 0xFC
    ∧ (0x03 : Nat) ≠ 0xFC := by
  decide

/-- Claim C2: for every device variant, resolved address and config,
`write_config` issues exactly one transport write, with byte sequence
`[0x80 ||| MODE1, mode1 bits, mode2 bits]`, addressed to the resolved
bus address. -/
theorem C2_write_config_single_write :
    ∀ (E : Type) (A : Address) (conf : Config) (t : List BusEvent),
      PCA963X.write_config (traceBus E none none) A.address PCA9633regs conf t
        = (Except.ok (), t ++ [BusEvent.writeEv A.address
            [0x80 ||| PCA9633regs.MODE1, conf.mode1.bits, conf.mode2.bits]])
      ∧ PCA963X.write_config (traceBus E none none) A.address PCA9634regs conf t
        = (Except.ok (), t ++ [BusEvent.writeEv A.address
            [0x80 ||| PCA9634regs.MODE1, conf.mode1.bits, conf.mode2.bits]]) :=
  fun _ _ _ _ => ⟨rfl, rfl⟩

/-- Claim C3: `outne` sets the OutNe1/OutNe0 pair to exactly the mode's
encoding (00: both cleared; 01: OutNe0 set, OutNe1 cleared; 10: OutNe0
cleared, OutNe1 set), leaves every other Mode2 flag and all of Mode1
unchanged, and is idempotent. -/
theorem C3_outne_pair :
    ∀ c : Config,
      ((c.outne OutputDrive.outNe00).mode2.outNe1 = false
        ∧ (c.outne OutputDrive.outNe00).mode2.outNe0 = false)
      ∧ ((c.outne OutputDrive.outNe01).mode2.outNe0 = true
        ∧ (c.outne OutputDrive.outNe01).mode2.outNe1 = false)
      ∧ ((c.outne OutputDrive.outNe10).mode2.outNe0 = false
        ∧ (c.outne OutputDrive.outNe10).mode2.outNe1 = true)
      ∧ (∀ m : OutputDrive,
          (c.outne m).mode2.dmBlink = c.mode2.dmBlink
          ∧ (c.outne m).mode2.invert = c.mode2.invert
          ∧ (c.outne m).mode2.och = c.mode2.och
          ∧ (c.outne m).mode2.outDrv = c.mode2.outDrv
          ∧ (c.outne m).mode1 = c.mode1)
      ∧ (∀ m : OutputDrive, (c.outne m).outne m = c.outne m) := by
  intro c
  refine ⟨⟨rfl, rfl⟩, ⟨rfl, rfl⟩, ⟨rfl, rfl⟩, fun m => ?_, fun m => ?_⟩
  · cases m <;> exact ⟨rfl, rfl, rfl, rfl, rfl⟩
  · cases m <;> rfl

/-- Claim C4: `Config::default()` has Mode1 bits 0b0001_0001 (Sleep and
AllCall set, the rest clear) and Mode2 bits 0b0000_0101 (OutDrv and OutNe0
set, the rest clear). -/
theorem C4_default_config :
    Config.default.mode1.bits = 0b00010001 ∧ Config.default.mode2.bits = 0b00000101
    ∧ Config.default.mode1.sleep = true ∧ Config.default.mode1.allCall = true
    ∧ Config.default.mode1.sub1 = false ∧ Config.default.mode1.sub2 = false
    ∧ Config.default.mode1.sub3 = false
    ∧ Config.default.mode2.outDrv = true ∧ Config.default.mode2.outNe0 = true
    ∧ Config.default.mode2.dmBlink = false ∧ Config.default.mode2.invert = false
    ∧ Config.default.mode2.och = false ∧ Config.default.mode2.outNe1 = false := by
  decide

/-- Claim C5: address resolution is a pure total function of the descriptor:
8-pin is 0x62; 10-pin is 0x60 with a0 at bit 0 and a1 at bit 1; 16-pin packs
a0..a6 at bits 0..6 with no base; Custom is returned verbatim; in particular
10-pin a0=true,a1=false gives 0x61 and 16-pin with only a3 gives 0x08. -/
theorem C5_address_resolution :
    Address.address Address.pin8 = 0x62
    ∧ (∀ a0 a1 : Bool, Address.address (Address.pin10 a0 a1)
        = 0x60 ||| (if a0 then 1 else 0) ||| (if a1 then 2 else 0))
    ∧ (∀ a0 a1 a2 a3 a4 a5 a6 : Bool,
        Address.address (Address.pin16 a0 a1 a2 a3 a4 a5 a6)
          = (if a0 then 1 else 0) ||| (if a1 then 2 else 0) ||| (if a2 then 4 else 0)
            ||| (if a3 then 8 else 0) ||| (if a4 then 16 else 0)
            ||| (if a5 then 32 else 0) ||| (if a6 then 64 else 0))
    ∧ (∀ addr : Nat, Address.address (Address.custom addr) = addr)
    ∧ Address.address (Address.pin10 true false) = 0x61
    ∧ Address.address (Address.pin16 false false false true false false false) = 0x08 :=
  ⟨by decide, by decide, by decide, fun _ => rfl, by decide, by decide⟩

/-- Claim C6: the register-address constants of the 4-channel and 8-channel
devices equal the documented values. -/
theorem C6_register_maps :
    PCA9633regs.MODE1 = 0x00 ∧ PCA9633regs.MODE2 = 0x01 ∧ PCA9633regs.PWM0 = 0x02
    ∧ PCA9633regs.GRPPWM = 0x06 ∧ PCA9633regs.GRPFREQ = 0x07
    ∧ PCA9633regs.LEDOUT1 = 0x08 ∧ PCA9633regs.SUBADR1 = 0x09
    ∧ PCA9633regs.SUBADR2 = 0x0A ∧ PCA9633regs.SUBADR3 = 0x0B
    ∧ PCA9633regs.ALLCALLADR = 0x0C
    ∧ PCA9634regs.MODE1 = 0x00 ∧ PCA9634regs.MODE2 = 0x01 ∧ PCA9634regs.PWM0 = 0x02
    ∧ PCA9634regs.GRPPWM = 0x0A ∧ PCA9634regs.GRPFREQ = 0x0B
    ∧ PCA9634regs.LEDOUT1 = 0x0C ∧ PCA9634regs.SUBADR1 = 0x0E
    ∧ PCA9634regs.SUBADR2 = 0x0F ∧ PCA9634regs.SUBADR3 = 0x10
    ∧ PCA9634regs.ALLCALLADR = 0x11 := by
  decide

/-- Claim C7: against the register-array transport, `write_duty(ch, V)`
followed by `read_duty(ch)` returns `V`, and both operations target the
single register `PWM0 + channel offset`, on both device variants. -/
theorem C7_duty_roundtrip :
    ∀ (a V : Nat) (s : RegState),
      (∀ ch : Channels4,
        (PCA963X.read_duty (regBus Unit) a PCA9633regs ch
            (PCA963X.write_duty (regBus Unit) a PCA9633regs ch V s).2).1 = Except.ok V
        ∧ PCA963X.write_duty (regBus Unit) a PCA9633regs ch V s
            = PCA963X.write (regBus Unit) a (PCA9633regs.PWM0 + get_offs ch) V s
        ∧ PCA963X.read_duty (regBus Unit) a PCA9633regs ch s
            = PCA963X.read (regBus Unit) a (PCA9633regs.PWM0 + get_offs ch) s)
      ∧ (∀ ch : Channels8,
        (PCA963X.read_duty (regBus Unit) a PCA9634regs ch
            (PCA963X.write_duty (regBus Unit) a PCA9634regs ch V s).2).1 = Except.ok V
        ∧ PCA963X.write_duty (regBus Unit) a PCA9634regs ch V s
            = PCA963X.write (regBus Unit) a (PCA9634regs.PWM0 + get_offs ch) V s
        ∧ PCA963X.read_duty (regBus Unit) a PCA9634regs ch s
            = PCA963X.read (regBus Unit) a (PCA9634regs.PWM0 + get_offs ch) s) := by
  intro a V s
  constructor <;> intro ch <;> refine ⟨?_, rfl, rfl⟩ <;>
    simp [PCA963X.read_duty, PCA963X.write_duty, PCA963X.read, PCA963X.write, regBus]

/-- Claim C8: for every channel and mode on either variant, when the read
phase of `write_out` fails with transport error `e` — at its register-pointer
write or at its buffer read — `write_out` returns exactly `e` and the
recorded transactions contain no subsequent write. -/
theorem C8_write_out_read_failure :
    ∀ (E : Type) (e : E) (a : Nat) (out : LedOut) (t : List BusEvent),
      (∀ ch : Channels4,
        PCA963X.write_out (traceBus E (some e) none) a PCA9633regs ch out t
          = (Except.error e,
              t ++ [BusEvent.writeEv a [PCA9633regs.LEDOUT1 + get_offs ch / 4]])
        ∧ PCA963X.write_out (traceBus E none (some e)) a PCA9633regs ch out t
          = (Except.error e,
              t ++ [BusEvent.writeEv a [PCA9633regs.LEDOUT1 + get_offs ch / 4],
                    BusEvent.readEv a 1]))
      ∧ (∀ ch : Channels8,
        PCA963X.write_out (traceBus E (some e) none) a PCA9634regs ch out t
          = (Except.error e,
              t ++ [BusEvent.writeEv a [PCA9634regs.LEDOUT1 + get_offs ch / 4]])
        ∧ PCA963X.write_out (traceBus E none (some e)) a PCA9634regs ch out t
          = (Except.error e,
              t ++ [BusEvent.writeEv a [PCA9634regs.LEDOUT1 + get_offs ch / 4],
                    BusEvent.readEv a 1])) := by
  intro E e a out t
  constructor <;> intro ch <;>
    constructor <;>
      simp [PCA963X.write_out, PCA963X.read, traceBus]

/-- Claim C9: setter calls with pairwise-distinct target flags give the same
configuration under any reordering, and calling any setter twice with the
same argument equals calling it once. -/
theorem C9_setters_commute :
    (∀ (c : Config) (l l2 : List SetterCall),
        l.Pairwise (fun s t => s.target ≠ t.target) → l.Perm l2 →
        l.foldl applyCall c = l2.foldl applyCall c)
    ∧ (∀ (c : Config) (s : SetterCall), applyCall (applyCall c s) s = applyCall c s) := by
  constructor
  · intro c l l2 hp hperm
    refine hperm.foldl_eq' (fun x hx y hy z => ?_) c
    by_cases hxy : x = y
    · subst hxy; rfl
    · exact applyCall_comm x y (hp.forall (fun a b hab => hab.symm) hx hy hxy) z
  · intro c s
    cases s <;> first | rfl | (rename_i m; cases m <;> rfl)

/-- Witness for C9: a concrete three-call sequence with distinct targets,
reordered, and a concrete repeated setter call. -/
theorem C9_setters_commute_witness :
    List.foldl applyCall Config.default
        [SetterCall.sub1 true, SetterCall.blink true, SetterCall.outne OutputDrive.outNe10]
      = List.foldl applyCall Config.default
        [SetterCall.outne OutputDrive.outNe10, SetterCall.blink true, SetterCall.sub1 true]
    ∧ applyCall (applyCall Config.default (SetterCall.sleep false)) (SetterCall.sleep false)
      = applyCall Config.default (SetterCall.sleep false) :=
  ⟨C9_setters_commute.1 Config.default _ _ (by decide) (by decide),
   C9_setters_commute.2 Config.default (SetterCall.sleep false)⟩

/-- Claim C10: `Config::new()` differs from `Config::default()` exactly in
the Sleep bit: its Mode1 bits are 0b0000_0001, its Mode2 bits 0b0000_0101,
and setting Sleep on `new` (resp. clearing it on `default`) yields the
other configuration. -/
theorem C10_new_vs_default :
    Config.new ≠ Config.default
    ∧ Config.new.mode1.bits = 0b00000001 ∧ Config.new.mode2.bits = 0b00000101
    ∧ Config.new.sleep true = Config.default
    ∧ Config.default.sleep false = Config.new := by
  decide
